import Mathlib

/-!
Shallow embedding of the triparific-tools image-composition pipelines
(`functions/main.py`, `src/triparific_tools/passport/compose_passport_stamps.py`,
`src/triparific_tools/flags/flag_grid_12ratio_fit.py`) together with theorems
settling the specification claims about them.

Images are modelled by their integer dimensions (pixel contents are irrelevant
to every claim here); the process-wide random generator is modelled as an
explicit stream of draw results; GCS fetch/persist collaborators are modelled
as an abstract resolver function and a persist-call counter.
-/

namespace Triparific

/-- Layout configuration constants shared by both pipelines
(`functions/main.py` lines 50-56). -/
def CANVAS_WIDTH : Int := 2000

def CANVAS_HEIGHT : Int := 2000

def AVOID_OVERLAP : Bool := true

def OVERLAP_RETRIES : Nat := 15

/-- A placement bounding box `(x, y, w, h)`, as recorded by the stamp placement
engine (Python tuples of ints). -/
structure Box where
  x : Int
  y : Int
  w : Int
  h : Int
deriving DecidableEq

/-- `_boxes_overlap(a, b)` from `functions/main.py` lines 102-105 (the copy in
`compose_passport_stamps.py` lines 40-43 is textually identical):
`not (ax + aw <= bx or bx + bw <= ax or ay + ah <= by or by + bh <= ay)`. -/
def boxes_overlap (a b : Box) : Bool :=
  !(decide (a.x + a.w ≤ b.x) || decide (b.x + b.w ≤ a.x) ||
    decide (a.y + a.h ≤ b.y) || decide (b.y + b.h ≤ a.y))

/-- Modelled from the spec: box `a` is entirely to the left of box `b`. -/
def entirelyLeftOf (a b : Box) : Prop := a.x + a.w ≤ b.x

/-- Modelled from the spec: box `a` is entirely above box `b`
(image coordinates grow downward). -/
def entirelyAbove (a b : Box) : Prop := a.y + a.h ≤ b.y

theorem boxes_overlap_iff (a b : Box) :
    boxes_overlap a b = true ↔
      ¬(a.x + a.w ≤ b.x ∨ b.x + b.w ≤ a.x ∨ a.y + a.h ≤ b.y ∨ b.y + b.h ≤ a.y) := by
  simp [boxes_overlap]
  tauto

/-- C1: the bounding-box overlap predicate judges two integer boxes as
overlapping unless one is entirely to the left, right, above, or below the
other; it is symmetric; and boxes sharing only an edge, such as
`(0,0,10,10)` and `(10,0,10,10)`, are judged non-overlapping. -/
theorem boxes_overlap_spec :
    (∀ a b : Box, boxes_overlap a b = true ↔
        ¬(entirelyLeftOf a b ∨ entirelyLeftOf b a ∨ entirelyAbove a b ∨ entirelyAbove b a))
    ∧ (∀ a b : Box, boxes_overlap a b = boxes_overlap b a)
    ∧ boxes_overlap ⟨0, 0, 10, 10⟩ ⟨10, 0, 10, 10⟩ = false := by
  refine ⟨fun a b => ?_, fun a b => ?_, by decide⟩
  · simpa [entirelyLeftOf, entirelyAbove] using boxes_overlap_iff a b
  · have ha := boxes_overlap_iff a b
    have hb := boxes_overlap_iff b a
    cases hov : boxes_overlap a b with
    | true =>
        have := ha.mp hov
        exact (hb.mpr (by tauto)).symm
    | false =>
        cases hov2 : boxes_overlap b a with
        | true =>
            have := hb.mp hov2
            have : boxes_overlap a b = true := ha.mpr (by tauto)
            simp [hov] at this
        | false => rfl

/-- Retry loop of `_choose_position` (`functions/main.py` lines 115-126).
`rng i` models the pair of results of the two `random.randint` calls of
iteration `i` of the process-wide generator; the fallback after the loop
performs one further fresh pair of `randint` calls, i.e. consumes `rng` at the
next index. `k` is the number of loop iterations still to run and `i` the
index of the next draw. -/
def choose_position_aux (rng : Nat → Int × Int) (img_w img_h : Int)
    (placed_boxes : List Box) : Nat → Nat → Int × Int
  | i, 0 => rng i
  | i, k + 1 =>
    let x := (rng i).1
    let y := (rng i).2
    let candidate : Box := ⟨x, y, img_w, img_h⟩
    if !AVOID_OVERLAP || !(placed_boxes.any fun b => boxes_overlap candidate b) then
      (x, y)
    else
      choose_position_aux rng img_w img_h placed_boxes (i + 1) k

/-- `_choose_position` from `functions/main.py` lines 108-126 (identical logic
in `compose_passport_stamps.py` lines 46-54): up to
`OVERLAP_RETRIES` random candidates are tried; the first whose box overlaps no
previously placed box is returned; if all overlap, a further fresh random
position is drawn and returned regardless of overlap. -/
def choose_position (rng : Nat → Int × Int) (img_w img_h : Int)
    (placed_boxes : List Box) : Int × Int :=
  choose_position_aux rng img_w img_h placed_boxes 0
    (if AVOID_OVERLAP then OVERLAP_RETRIES else 1)

theorem choose_position_aux_all_overlap (rng : Nat → Int × Int) (img_w img_h : Int)
    (placed_boxes : List Box) (k i : Nat)
    (hov : ∀ j, j < k →
      (placed_boxes.any fun b =>
        boxes_overlap ⟨(rng (i + j)).1, (rng (i + j)).2, img_w, img_h⟩ b) = true) :
    choose_position_aux rng img_w img_h placed_boxes i k = rng (i + k) := by
  induction k generalizing i with
  | zero => simp [choose_position_aux]
  | succ k ih =>
      have h0 := hov 0 (Nat.succ_pos k)
      simp only [Nat.add_zero] at h0
      have hrec := ih (i + 1) (fun j hj => by
        have h := hov (j + 1) (Nat.succ_lt_succ hj)
        have he : i + (j + 1) = i + 1 + j := by omega
        rwa [he] at h)
      rw [choose_position_aux]
      simp [AVOID_OVERLAP, h0, hrec]
      congr 1
      omega

/-- Concrete random stream used to exercise the all-overlap fallback:
draw `i` is the position `(i, 0)`. -/
def rngCex : Nat → Int × Int := fun i => ((i : Int), 0)

/-- C2 counterexample: with one placed box covering the whole canvas, every one
of the 15 retry candidates overlaps, yet the accepted position is a freshly
drawn 16th position `(15, 0)`, not the last-tried position `(14, 0)` — the
claim that the last-tried position is accepted is false. -/
theorem choose_position_last_tried_cex :
    ((List.range OVERLAP_RETRIES).all fun i =>
      boxes_overlap ⟨(rngCex i).1, (rngCex i).2, 10, 10⟩ ⟨0, 0, 2000, 2000⟩) = true
    ∧ choose_position rngCex 10 10 [⟨0, 0, 2000, 2000⟩] = (15, 0)
    ∧ rngCex (OVERLAP_RETRIES - 1) = (14, 0)
    ∧ ((15 : Int), (0 : Int)) ≠ ((14 : Int), (0 : Int)) := by
  decide

/-- C2 amended: when all `OVERLAP_RETRIES` (= 15) candidate positions overlap
some previously placed box, the search terminates by accepting one further
freshly drawn random position (the 16th draw), regardless of overlap — the run
never fails for this reason. -/
theorem choose_position_fallback_fresh_draw (rng : Nat → Int × Int)
    (img_w img_h : Int) (placed_boxes : List Box)
    (hov : ∀ j, j < OVERLAP_RETRIES →
      (placed_boxes.any fun b =>
        boxes_overlap ⟨(rng j).1, (rng j).2, img_w, img_h⟩ b) = true) :
    choose_position rng img_w img_h placed_boxes = rng OVERLAP_RETRIES := by
  have := choose_position_aux_all_overlap rng img_w img_h placed_boxes
    OVERLAP_RETRIES 0 (fun j hj => by simpa using hov j hj)
  simpa [choose_position, AVOID_OVERLAP] using this

/-- Witness for the amended C2 theorem at a concrete all-overlapping input. -/
theorem choose_position_fallback_fresh_draw_witness :
    choose_position rngCex 10 10 [⟨0, 0, 2000, 2000⟩] = rngCex OVERLAP_RETRIES :=
  choose_position_fallback_fresh_draw rngCex 10 10 [⟨0, 0, 2000, 2000⟩] (by decide)

/-- A decoded PIL image, modelled by its dimensions (`img.size`); pixel data
plays no role in any claim settled here. -/
structure PILImage where
  width : Int
  height : Int
deriving DecidableEq

/-- A concrete 1x1 decoded image, used as a resolver result in witnesses. -/
def unitImage : PILImage := ⟨1, 1⟩

/-- `img.resize((w, h), Image.LANCZOS)`: the result has exactly the requested
dimensions. -/
def PILImage.resize (_img : PILImage) (w h : Int) : PILImage := ⟨w, h⟩

/-- `Image.new("RGBA", (w, h), fill)`: a fresh canvas of the given size. -/
def PILImage.new (w h : Int) : PILImage := ⟨w, h⟩

/-- `img.crop((left, top, right, bottom))`: PIL returns an image of size
`(right - left, bottom - top)`, padding with empty pixels where the crop box
extends past the source. -/
def PILImage.crop (_img : PILImage) (left top right bottom : Int) : PILImage :=
  ⟨right - left, bottom - top⟩

/-- `base.alpha_composite(overlay, dest)`: composites in place, leaving the
base image's dimensions unchanged. -/
def PILImage.alphaComposite (base : PILImage) (_overlay : PILImage)
    (_dest : Int × Int) : PILImage := base

/-- Python 3 `round` on an exact value: round-half-to-even (banker's
rounding), modelled over `ℚ`. Off half-integers it agrees with Mathlib's
round-half-up `round`. -/
def pyRound (q : ℚ) : Int :=
  if q - ⌊q⌋ = 1 / 2 then (if 2 ∣ ⌊q⌋ then ⌊q⌋ else ⌊q⌋ + 1) else round q

theorem pyRound_intCast (n : Int) : pyRound (n : ℚ) = n := by
  have hf : ⌊(n : ℚ)⌋ = n := Int.floor_intCast n
  rw [pyRound, hf]
  have : (n : ℚ) - n = 0 := by ring
  rw [this]
  norm_num

/-- `make_uniform_tile_from_bytes` from `functions/main.py` lines 218-256
(same logic as `make_uniform_tile` in `flag_grid_12ratio_fit.py` lines 30-67,
which lacks only the `stretch` fallthrough), modelled on the dimensions of the
already-decoded source image (`Image.open(io.BytesIO(img_bytes)).convert("RGBA")`
is the identity on dimensions). Exact rational arithmetic stands in for Python
floats; `//` on ints is floor division (`Int.fdiv`). -/
def make_uniform_tile_from_bytes (src : PILImage) (box_h : Int)
    (ratio_w_over_h : ℚ) (fit_mode : String) : PILImage :=
  let box_w : Int := pyRound (ratio_w_over_h * (box_h : ℚ))
  let w := src.width
  let h := src.height
  if fit_mode = "pad" then
    let scale : ℚ := min ((box_w : ℚ) / (w : ℚ)) ((box_h : ℚ) / (h : ℚ))
    let new_w : Int := max 1 (pyRound ((w : ℚ) * scale))
    let new_h : Int := max 1 (pyRound ((h : ℚ) * scale))
    let img := src.resize new_w new_h
    let tile := PILImage.new box_w box_h
    let x := Int.fdiv (box_w - new_w) 2
    let y := Int.fdiv (box_h - new_h) 2
    tile.alphaComposite img (x, y)
  else if fit_mode = "crop" then
    let scale : ℚ := max ((box_w : ℚ) / (w : ℚ)) ((box_h : ℚ) / (h : ℚ))
    let new_w : Int := max 1 (pyRound ((w : ℚ) * scale))
    let new_h : Int := max 1 (pyRound ((h : ℚ) * scale))
    let img := src.resize new_w new_h
    let left := max 0 (Int.fdiv (new_w - box_w) 2)
    let top := max 0 (Int.fdiv (new_h - box_h) 2)
    img.crop left top (left + box_w) (top + box_h)
  else
    src.resize box_w box_h

/-- C6: for every positive target height and every fit mode among pad, crop
and stretch, the produced tile measures exactly `round(2.0 * box_h)` wide
(that is, `2 * box_h`) by `box_h` high, regardless of the (positive) source
dimensions. -/
theorem make_uniform_tile_dims (src : PILImage) (hw : 0 < src.width)
    (hh : 0 < src.height) (box_h : Int) (hb : 0 < box_h) (fit_mode : String)
    (hm : fit_mode = "pad" ∨ fit_mode = "crop" ∨ fit_mode = "stretch") :
    (make_uniform_tile_from_bytes src box_h 2 fit_mode).width
        = pyRound ((2 : ℚ) * (box_h : ℚ))
    ∧ (make_uniform_tile_from_bytes src box_h 2 fit_mode).width = 2 * box_h
    ∧ (make_uniform_tile_from_bytes src box_h 2 fit_mode).height = box_h := by
  have hbw : pyRound ((2 : ℚ) * (box_h : ℚ)) = 2 * box_h := by
    have : ((2 : ℚ) * (box_h : ℚ)) = ((2 * box_h : Int) : ℚ) := by push_cast; ring
    rw [this, pyRound_intCast]
  rcases hm with h | h | h <;> subst h <;>
    simp [make_uniform_tile_from_bytes, PILImage.new, PILImage.resize,
      PILImage.crop, PILImage.alphaComposite, hbw]

/-- Witness for the C6 theorem at a concrete source image and tile height. -/
theorem make_uniform_tile_dims_witness :
    (make_uniform_tile_from_bytes ⟨1000, 600⟩ 250 2 "pad").width
        = pyRound ((2 : ℚ) * ((250 : Int) : ℚ))
    ∧ (make_uniform_tile_from_bytes ⟨1000, 600⟩ 250 2 "pad").width = 2 * 250
    ∧ (make_uniform_tile_from_bytes ⟨1000, 600⟩ 250 2 "pad").height = 250 :=
  make_uniform_tile_dims ⟨1000, 600⟩ (by norm_num) (by norm_num) 250 (by norm_num)
    "pad" (Or.inl rfl)

/-- C7: the source has no guard on non-positive `box_h`. At `box_h = 0` the
pad branch silently proceeds to build a degenerate `0 × 0` tile (in real PIL
the subsequent `alpha_composite` at destination `(-1, 0)` raises a bare
`ValueError`, and a negative `box_h` makes `Image.new` itself raise) — no
`InvalidInput` failure exists in the code. -/
theorem make_uniform_tile_no_guard :
    make_uniform_tile_from_bytes ⟨1000, 600⟩ 0 2 "pad" = ⟨0, 0⟩
    ∧ make_uniform_tile_from_bytes ⟨1000, 600⟩ 0 2 "stretch" = ⟨0, 0⟩
    ∧ make_uniform_tile_from_bytes ⟨1000, 600⟩ (-1) 2 "stretch" = ⟨-2, -1⟩ := by
  have h0 : pyRound (0 : ℚ) = 0 := by simpa using pyRound_intCast 0
  have h1 : pyRound (-2 : ℚ) = -2 := by simpa using pyRound_intCast (-2)
  refine ⟨?_, ?_, ?_⟩ <;>
    simp [make_uniform_tile_from_bytes, PILImage.new, PILImage.resize,
      PILImage.alphaComposite, h0, h1]

/-- The whitespace characters stripped by Python's `int(s, 16)` before
parsing. -/
def isPySpace (c : Char) : Bool :=
  c = ' ' || c = '\t' || c = '\n' || c = '\r' || c = '\x0b' || c = '\x0c'

/-- Value of a single hexadecimal digit, if any. -/
def hexVal? (c : Char) : Option Nat :=
  if '0' ≤ c ∧ c ≤ '9' then some (c.toNat - '0'.toNat)
  else if 'a' ≤ c ∧ c ≤ 'f' then some (c.toNat - 'a'.toNat + 10)
  else if 'A' ≤ c ∧ c ≤ 'F' then some (c.toNat - 'A'.toNat + 10)
  else none

/-- Accumulating parser for a hexadecimal digit run in which a single
underscore may separate two digits (Python's numeric-literal rule). -/
def hexNatCore (acc : Nat) : List Char → Option Nat
  | [] => some acc
  | '_' :: rest =>
    match rest with
    | [] => none
    | c :: rest2 =>
      match hexVal? c with
      | some d => hexNatCore (16 * acc + d) rest2
      | none => none
  | c :: rest =>
    match hexVal? c with
    | some d => hexNatCore (16 * acc + d) rest
    | none => none

/-- Python's `int(s, 16)`: optional surrounding whitespace, an optional sign,
then a non-empty run of hex digits (single underscores allowed between
digits); anything else raises `ValueError`. The `0x` prefix form cannot occur
on the two-character slices this program feeds in (`"0x"` alone has no digits
and errors under both readings). -/
def pyIntHex16 (s : List Char) : Except String Int :=
  let t1 := s.dropWhile isPySpace
  let t := (t1.reverse.dropWhile isPySpace).reverse
  let signDigits : Int × List Char :=
    match t with
    | '+' :: rest => (1, rest)
    | '-' :: rest => (-1, rest)
    | rest => (1, rest)
  match signDigits.2 with
  | [] => Except.error "invalid literal for int() with base 16"
  | c :: rest =>
    if c = '_' then Except.error "invalid literal for int() with base 16"
    else
      match hexNatCore 0 (c :: rest) with
      | some n => Except.ok (signDigits.1 * (n : Int))
      | none => Except.error "invalid literal for int() with base 16"

/-- Python's `str.lower()` restricted to this program's inputs: character-wise
lowering (agrees with Python on ASCII, which is all the keyword comparison
needs). -/
def pyLower (s : String) : String := String.mk (s.data.map Char.toLower)

deriving instance DecidableEq for Except

/-- `hex_to_rgba` from `functions/main.py` lines 205-215 (identical in
`flag_grid_12ratio_fit.py` lines 20-28). `col.startswith("#")`, `len(col)` and
the slices are taken on the character list; an uncaught `ValueError` raised by
`int(_, 16)` on a malformed digit pair is modelled by the `Except.error`
branch; Python evaluates the red slice first, then green, then blue. -/
def hex_to_rgba (col : String) : Except String (Option (Int × Int × Int × Int)) :=
  if pyLower col = "transparent" then Except.ok none
  else if col.data.head? = some '#' ∧ (col.data.length = 4 ∨ col.data.length = 7) then
    let col2 :=
      if col.data.length = 4 then
        String.mk ('#' :: ((col.data.drop 1).map fun c => [c, c]).flatten)
      else col
    match pyIntHex16 ((col2.data.drop 1).take 2),
        pyIntHex16 ((col2.data.drop 3).take 2),
        pyIntHex16 ((col2.data.drop 5).take 2) with
    | Except.ok r, Except.ok g, Except.ok b => Except.ok (some (r, g, b, 255))
    | Except.error e, _, _ => Except.error e
    | _, Except.error e, _ => Except.error e
    | _, _, Except.error e => Except.error e
  else Except.ok (some (255, 255, 255, 255))

/-- The background fill chosen by `build_flag_grid` (`functions/main.py`
lines 320-325): fully transparent black when `hex_to_rgba` returned `None`,
the parsed colour otherwise. -/
def canvasFill (bg_rgba : Option (Int × Int × Int × Int)) : Int × Int × Int × Int :=
  bg_rgba.getD (0, 0, 0, 0)

/-- C8 counterexample: `"#zzz"` is neither the transparent keyword nor a
well-formed hex colour (`'z'` is not a hex digit), yet the parser raises a
`ValueError` from `int("zz", 16)` instead of falling back to opaque white —
the claim that every such string totally falls back to white is false. -/
theorem hex_to_rgba_fallback_cex :
    hex_to_rgba "#zzz" = Except.error "invalid literal for int() with base 16"
    ∧ hex_to_rgba "#zzz" ≠ Except.ok (some (255, 255, 255, 255))
    ∧ pyLower "#zzz" ≠ "transparent"
    ∧ hexVal? 'z' = none := by
  refine ⟨by decide, by decide, by decide, by decide⟩

/-- C8 amended: every string that is neither the transparent keyword
(case-insensitively) nor shaped like a hex colour attempt — a `"#"` followed
by exactly 3 or 6 further characters — falls back to opaque white; strings of
that hex shape whose digits are malformed instead raise a `ValueError`. -/
theorem hex_to_rgba_fallback_white (col : String)
    (ht : pyLower col ≠ "transparent")
    (hs : ¬(col.data.head? = some '#' ∧ (col.data.length = 4 ∨ col.data.length = 7))) :
    hex_to_rgba col = Except.ok (some (255, 255, 255, 255)) := by
  rw [hex_to_rgba, if_neg ht, if_neg hs]

/-- Witness for the amended C8 theorem on a plain colour name. -/
theorem hex_to_rgba_fallback_white_witness :
    hex_to_rgba "blue" = Except.ok (some (255, 255, 255, 255)) :=
  hex_to_rgba_fallback_white "blue" (by decide) (by decide)

/-- C9: `"#fff"` and `"#ffffff"` parse to the same opaque white RGBA value
(the 4-character form doubles each nibble), and any casing of `"transparent"`
yields no background fill, so the grid canvas is created fully transparent
(`(0,0,0,0)`, alpha 0 everywhere). -/
theorem hex_to_rgba_shorthand_transparent (s : String)
    (hs : pyLower s = "transparent") :
    hex_to_rgba "#fff" = Except.ok (some (255, 255, 255, 255))
    ∧ hex_to_rgba "#ffffff" = Except.ok (some (255, 255, 255, 255))
    ∧ hex_to_rgba "#fff" = hex_to_rgba "#ffffff"
    ∧ hex_to_rgba s = Except.ok none
    ∧ canvasFill none = (0, 0, 0, 0) := by
  refine ⟨by decide, by decide, by decide, ?_, by decide⟩
  rw [hex_to_rgba, if_pos hs]

/-- Witness for C9 at an upper-case spelling of the transparent keyword. -/
theorem hex_to_rgba_shorthand_transparent_witness :
    hex_to_rgba "#fff" = Except.ok (some (255, 255, 255, 255))
    ∧ hex_to_rgba "#ffffff" = Except.ok (some (255, 255, 255, 255))
    ∧ hex_to_rgba "#fff" = hex_to_rgba "#ffffff"
    ∧ hex_to_rgba "Transparent" = Except.ok none
    ∧ canvasFill none = (0, 0, 0, 0) :=
  hex_to_rgba_shorthand_transparent "Transparent" (by decide)

/-- The error kinds of the two pipelines: `InvalidInput` is
`ValueError("No country codes provided.")`, `NoAssetsResolved` is
`ValueError("No stamps found matching provided codes.")` /
`ValueError("No images could be loaded. ...")`, and `valueError` models any
other uncaught `ValueError` (such as the one `int(_, 16)` raises inside
`hex_to_rgba`). -/
inductive PipelineError where
  | invalidInput
  | noAssetsResolved
  | valueError (msg : String)
deriving DecidableEq

/-- Python's `str.strip()` (ASCII whitespace, which covers this program's
inputs). -/
def pyStrip (s : String) : String :=
  String.mk (((s.data.dropWhile isPySpace).reverse.dropWhile isPySpace).reverse)

/-- `codes = [c.lower() for c in codes if c]` (`functions/main.py` line 163). -/
def normalize_stamp_codes (codes : List String) : List String :=
  (codes.filter fun c => c ≠ "").map pyLower

/-- `codes = [c.strip().lower() for c in codes if c.strip()]`
(`functions/main.py` line 294). -/
def normalize_flag_codes (codes : List String) : List String :=
  (codes.filter fun c => pyStrip c ≠ "").map fun c => pyLower (pyStrip c)

/-- The per-code loop of `compose_passport_stamps` (`functions/main.py` lines
173-185), abstracted over the GCS fetch (`_load_stamp_from_gcs`): a resolved
code is transformed, placed and appended to `placed`; an unresolved one is
appended to `missing`. Only the resulting `placed`/`missing` lists are
modelled — the compositing side effects on the canvas do not influence them. -/
def stampLoop (fetch : String → Option PILImage) :
    List String → List String × List String
  | [] => ([], [])
  | code :: rest =>
    match fetch code with
    | none =>
      let pm := stampLoop fetch rest
      (pm.1, code :: pm.2)
    | some _ =>
      let pm := stampLoop fetch rest
      (code :: pm.1, pm.2)

/-- `compose_passport_stamps` from `functions/main.py` lines 162-198; the
result models the `placed` and `missing` fields of the returned dict (the
random filename and `gs://` path are opaque), and the second component counts
calls to the Persist collaborator (`_save_canvas_to_gcs`). -/
def compose_passport_stamps (fetch : String → Option PILImage)
    (codes : List String) :
    Except PipelineError (List String × List String) × Nat :=
  if normalize_stamp_codes codes = [] then
    (Except.error PipelineError.invalidInput, 0)
  else if (stampLoop fetch (normalize_stamp_codes codes)).1 = [] then
    (Except.error PipelineError.noAssetsResolved, 0)
  else
    (Except.ok (stampLoop fetch (normalize_stamp_codes codes)), 1)

/-- The per-code loop of `build_flag_grid` (`functions/main.py` lines
301-306), abstracted over `_load_flag_tile_from_gcs` (which bakes in
`tile_height` and `fit_mode`): returns the `missing` codes and the resolved
`(code, tile)` pairs, both in input order. -/
def flagLoop (fetchTile : String → Option PILImage) :
    List String → List String × List (String × PILImage)
  | [] => ([], [])
  | code :: rest =>
    match fetchTile code with
    | none =>
      let mt := flagLoop fetchTile rest
      (code :: mt.1, mt.2)
    | some tile =>
      let mt := flagLoop fetchTile rest
      (mt.1, (code, tile) :: mt.2)

/-- Grid geometry of `build_flag_grid` (`functions/main.py` lines 311-318 and
`flag_grid_12ratio_fit.py` lines 95-102):
`cols = max(1, min(cols, len(tiles)))`, `rows = math.ceil(len(tiles)/cols)`
(exact rational division stands in for Python float division),
`gap = max(0, gap)`, and the canvas dimensions. -/
structure GridGeometry where
  cols : Int
  rows : Int
  gapEff : Int
  canvasW : Int
  canvasH : Int
deriving DecidableEq

def flag_grid_geometry (n : Nat) (cols gap tile_w tile_h : Int) : GridGeometry :=
  let c := max 1 (min cols (n : Int))
  let r : Int := ⌈(n : ℚ) / (c : ℚ)⌉
  let g := max 0 gap
  ⟨c, r, g, c * tile_w + (c - 1) * g, r * tile_h + (r - 1) * g⟩

/-- Result of `build_flag_grid`: the `placed`/`missing` lists of the returned
dict, the grid geometry, the canvas background fill, and the `(x, y)`
destination of each tile in placement order (`functions/main.py` lines
327-332: `x = c * (tile_w + gap)`, `y = r * (tile_h + gap)` with
`r = idx // cols`, `c = idx % cols`). -/
structure FlagResult where
  placed : List String
  missing : List String
  geometry : GridGeometry
  bgFill : Int × Int × Int × Int
  positions : List (Int × Int)
deriving DecidableEq

/-- Geometry, background and tile-placement phase of `build_flag_grid`
(`functions/main.py` lines 308-350), given the loop result `mt =
(missing, tiles)`. `idx // cols` and `idx % cols` are Euclidean division,
which agrees with Python floor division on `idx ≥ 0`, `cols ≥ 1`. -/
def build_flag_grid_core (mt : List String × List (String × PILImage))
    (cols gap : Int) (bg : String) : Except PipelineError FlagResult × Nat :=
  match mt.2 with
  | [] => (Except.error PipelineError.noAssetsResolved, 0)
  | t0 :: _ =>
    let G := flag_grid_geometry mt.2.length cols gap t0.2.width t0.2.height
    match hex_to_rgba bg with
    | Except.error e => (Except.error (PipelineError.valueError e), 0)
    | Except.ok bg_rgba =>
      let positions := (List.range mt.2.length).map fun idx =>
        (Int.emod (idx : Int) G.cols * (t0.2.width + G.gapEff),
         Int.ediv (idx : Int) G.cols * (t0.2.height + G.gapEff))
      (Except.ok ⟨mt.2.map Prod.fst, mt.1, G, canvasFill bg_rgba, positions⟩, 1)

/-- `build_flag_grid` from `functions/main.py` lines 283-350 (the CLI `main`
of `flag_grid_12ratio_fit.py` lines 69-123 has the same structure): normalize
codes, fail on empty input, resolve tiles, then lay out and persist once. The
second component counts Persist calls. -/
def build_flag_grid (fetchTile : String → Option PILImage) (codes : List String)
    (cols gap : Int) (bg : String) : Except PipelineError FlagResult × Nat :=
  if normalize_flag_codes codes = [] then
    (Except.error PipelineError.invalidInput, 0)
  else
    build_flag_grid_core (flagLoop fetchTile (normalize_flag_codes codes)) cols gap bg

/-- Modelled from the spec: `clamp(requested_cols, 1, tile_count)`. -/
def clampSpec (x lo hi : Int) : Int := min hi (max lo x)

theorem stampLoop_resolve_all (fetch : String → Option PILImage)
    (l : List String) (hall : ∀ c ∈ l, (fetch c).isSome = true) :
    stampLoop fetch l = (l, []) := by
  induction l with
  | nil => rfl
  | cons code rest ih =>
      have hc := hall code (List.mem_cons_self code rest)
      have hrest := ih fun c hc2 => hall c (List.mem_cons_of_mem code hc2)
      rw [stampLoop]
      rcases hsome : fetch code with _ | img
      · rw [hsome] at hc; simp at hc
      · simp [hrest]

theorem stampLoop_resolve_none (fetch : String → Option PILImage)
    (l : List String) (hnone : ∀ c ∈ l, fetch c = none) :
    stampLoop fetch l = ([], l) := by
  induction l with
  | nil => rfl
  | cons code rest ih =>
      have hc := hnone code (List.mem_cons_self code rest)
      have hrest := ih fun c hc2 => hnone c (List.mem_cons_of_mem code hc2)
      rw [stampLoop, hc]
      simp [hrest]

theorem flagLoop_resolve_none (fetchTile : String → Option PILImage)
    (l : List String) (hnone : ∀ c ∈ l, fetchTile c = none) :
    flagLoop fetchTile l = (l, []) := by
  induction l with
  | nil => rfl
  | cons code rest ih =>
      have hc := hnone code (List.mem_cons_self code rest)
      have hrest := ih fun c hc2 => hnone c (List.mem_cons_of_mem code hc2)
      rw [flagLoop, hc]
      simp [hrest]

theorem compose_passport_stamps_persist (fetch : String → Option PILImage)
    (codes : List String) :
    (compose_passport_stamps fetch codes).2 ≤ 1
    ∧ ∀ e, (compose_passport_stamps fetch codes).1 = Except.error e →
        (compose_passport_stamps fetch codes).2 = 0 := by
  unfold compose_passport_stamps
  split
  · simp
  · split
    · simp
    · simp

theorem build_flag_grid_core_persist (mt : List String × List (String × PILImage))
    (cols gap : Int) (bg : String) :
    (build_flag_grid_core mt cols gap bg).2 ≤ 1
    ∧ ∀ e, (build_flag_grid_core mt cols gap bg).1 = Except.error e →
        (build_flag_grid_core mt cols gap bg).2 = 0 := by
  unfold build_flag_grid_core
  split
  · simp
  · split
    · simp
    · simp

theorem build_flag_grid_persist (fetchTile : String → Option PILImage)
    (codes : List String) (cols gap : Int) (bg : String) :
    (build_flag_grid fetchTile codes cols gap bg).2 ≤ 1
    ∧ ∀ e, (build_flag_grid fetchTile codes cols gap bg).1 = Except.error e →
        (build_flag_grid fetchTile codes cols gap bg).2 = 0 := by
  unfold build_flag_grid
  split
  · simp
  · exact build_flag_grid_core_persist _ cols gap bg

/-- C4 counterexample: with every code resolving, the input `["au", "au"]`
yields `placed = ["au", "au"]` of length 2, while the number of distinct
resolved codes is 1 — `placed` is counted with multiplicity, not
deduplicated, so the claim's "distinct" count is wrong. -/
theorem compose_all_resolved_cex :
    compose_passport_stamps (fun _ => some unitImage) ["au", "au"]
      = (Except.ok (["au", "au"], []), 1)
    ∧ (["au", "au"] : List String).dedup = ["au"]
    ∧ ¬((["au", "au"] : List String).length
        = (["au", "au"] : List String).dedup.length) := by
  refine ⟨?_, ?_, ?_⟩ <;> decide

/-- C4 amended: for every code list whose normalized form is non-empty and in
which every normalized code resolves, the pipeline succeeds with `missing`
empty and `placed` equal to the normalized input list itself — its length is
the number of resolved codes counted with multiplicity (duplicates are placed
once per occurrence), and its order matches the input order; exactly one
persist call is made. -/
theorem compose_all_resolved (fetch : String → Option PILImage)
    (codes : List String) (hne : normalize_stamp_codes codes ≠ [])
    (hall : ∀ c ∈ normalize_stamp_codes codes, (fetch c).isSome = true) :
    compose_passport_stamps fetch codes
      = (Except.ok (normalize_stamp_codes codes, []), 1) := by
  have hl := stampLoop_resolve_all fetch _ hall
  unfold compose_passport_stamps
  rw [if_neg hne, hl]
  simp [hne]

/-- Witness for the amended C4 theorem on a fully resolving concrete input. -/
theorem compose_all_resolved_witness :
    compose_passport_stamps (fun _ => some unitImage) ["AU", "nz"]
      = (Except.ok (normalize_stamp_codes ["AU", "nz"], []), 1) :=
  compose_all_resolved (fun _ => some unitImage) ["AU", "nz"] (by decide)
    (by intro c _; rfl)

/-- C5 counterexample: for the empty code list no code resolves (vacuously,
and the fetch collaborator here resolves nothing), yet the stamp pipeline
fails with `InvalidInput` ("No country codes provided."), not
`NoAssetsResolved` — though indeed with zero persist calls. -/
theorem no_assets_resolved_cex :
    compose_passport_stamps (fun _ => none) []
      = (Except.error PipelineError.invalidInput, 0)
    ∧ build_flag_grid (fun _ => none) [] 8 12 "transparent"
      = (Except.error PipelineError.invalidInput, 0)
    ∧ PipelineError.invalidInput ≠ PipelineError.noAssetsResolved := by
  refine ⟨by decide, ?_, by decide⟩
  rfl

/-- C5 amended: for every code list whose normalized form is non-empty and in
which no code resolves, each pipeline fails with `NoAssetsResolved` and makes
zero persist calls (the empty normalized list instead fails with
`InvalidInput`, also without persisting); and in general each pipeline makes
at most one persist call, and none at all whenever it fails — the single
persist happens only after the full canvas is finalized. -/
theorem no_assets_resolved_and_single_persist
    (fetchS fetchT : String → Option PILImage) (codesS codesT : List String)
    (cols gap : Int) (bg : String)
    (hS : normalize_stamp_codes codesS ≠ [])
    (hSn : ∀ c ∈ normalize_stamp_codes codesS, fetchS c = none)
    (hT : normalize_flag_codes codesT ≠ [])
    (hTn : ∀ c ∈ normalize_flag_codes codesT, fetchT c = none) :
    compose_passport_stamps fetchS codesS
      = (Except.error PipelineError.noAssetsResolved, 0)
    ∧ build_flag_grid fetchT codesT cols gap bg
      = (Except.error PipelineError.noAssetsResolved, 0)
    ∧ (∀ f cs, (compose_passport_stamps f cs).2 ≤ 1
        ∧ ∀ e, (compose_passport_stamps f cs).1 = Except.error e →
            (compose_passport_stamps f cs).2 = 0)
    ∧ (∀ f cs c g b, (build_flag_grid f cs c g b).2 ≤ 1
        ∧ ∀ e, (build_flag_grid f cs c g b).1 = Except.error e →
            (build_flag_grid f cs c g b).2 = 0) := by
  refine ⟨?_, ?_, compose_passport_stamps_persist, build_flag_grid_persist⟩
  · have hl := stampLoop_resolve_none fetchS _ hSn
    unfold compose_passport_stamps
    rw [if_neg hS, hl]
    simp
  · have hl := flagLoop_resolve_none fetchT _ hTn
    unfold build_flag_grid
    rw [if_neg hT, hl]
    rfl

/-- Witness for the amended C5 theorem on concrete never-resolving inputs. -/
theorem no_assets_resolved_and_single_persist_witness :
    compose_passport_stamps (fun _ => none) ["au"]
      = (Except.error PipelineError.noAssetsResolved, 0)
    ∧ build_flag_grid (fun _ => none) ["au"] 8 12 "transparent"
      = (Except.error PipelineError.noAssetsResolved, 0) := by
  have h := no_assets_resolved_and_single_persist (fun _ => none) (fun _ => none)
    ["au"] ["au"] 8 12 "transparent" (by decide) (by intro c _; rfl)
    (by decide) (by intro c _; rfl)
  exact ⟨h.1, h.2.1⟩

/-- C3: for every resolved tile count `n ≥ 1`, the effective column count is
`clamp(requested_cols, 1, n)`, the row count is `ceil(n / effective_cols)`,
and the canvas measures `cols*tile_w + (cols-1)*gap` by
`rows*tile_h + (rows-1)*gap` (tile size being that of the first resolved
tile, which `build_flag_grid` passes in); in particular `n=20, cols=8` gives
8 effective columns and 3 rows, and `n=3, cols=8` gives 3 columns and 1
row. -/
theorem flag_grid_geometry_spec (n : Nat) (hn : 1 ≤ n)
    (c gap tile_w tile_h : Int) (hg : 0 ≤ gap) :
    (flag_grid_geometry n c gap tile_w tile_h).cols = clampSpec c 1 n
    ∧ (flag_grid_geometry n c gap tile_w tile_h).rows
        = ⌈(n : ℚ) / ((flag_grid_geometry n c gap tile_w tile_h).cols : ℚ)⌉
    ∧ (flag_grid_geometry n c gap tile_w tile_h).canvasW
        = (flag_grid_geometry n c gap tile_w tile_h).cols * tile_w
          + ((flag_grid_geometry n c gap tile_w tile_h).cols - 1) * gap
    ∧ (flag_grid_geometry n c gap tile_w tile_h).canvasH
        = (flag_grid_geometry n c gap tile_w tile_h).rows * tile_h
          + ((flag_grid_geometry n c gap tile_w tile_h).rows - 1) * gap
    ∧ (flag_grid_geometry 20 8 gap tile_w tile_h).cols = 8
    ∧ (flag_grid_geometry 20 8 gap tile_w tile_h).rows = 3
    ∧ (flag_grid_geometry 3 8 gap tile_w tile_h).cols = 3
    ∧ (flag_grid_geometry 3 8 gap tile_w tile_h).rows = 1 := by
  have hgap : max 0 gap = gap := max_eq_right hg
  have hn20 : max 1 (min (8 : Int) ((20 : Nat) : Int)) = 8 := by norm_num
  have hn3 : max 1 (min (8 : Int) ((3 : Nat) : Int)) = 3 := by norm_num
  refine ⟨?_, ?_, ?_, ?_, ?_, ?_, ?_, ?_⟩
  · simp only [flag_grid_geometry, clampSpec]
    omega
  · simp only [flag_grid_geometry]
  · simp only [flag_grid_geometry, hgap]
  · simp only [flag_grid_geometry, hgap]
  · simp only [flag_grid_geometry, hn20]
  · simp only [flag_grid_geometry, hn20]
    rw [Int.ceil_eq_iff]
    norm_num
  · simp only [flag_grid_geometry, hn3]
  · simp only [flag_grid_geometry, hn3]
    rw [Int.ceil_eq_iff]
    norm_num

/-- Witness for C3 at the default layout parameters. -/
theorem flag_grid_geometry_spec_witness :
    (flag_grid_geometry 20 8 12 500 250).cols = clampSpec 8 1 20
    ∧ (flag_grid_geometry 20 8 12 500 250).rows = 3
    ∧ (flag_grid_geometry 20 8 12 500 250).canvasW
        = (flag_grid_geometry 20 8 12 500 250).cols * 500
          + ((flag_grid_geometry 20 8 12 500 250).cols - 1) * 12 := by
  have h := flag_grid_geometry_spec 20 (by norm_num) 8 12 500 250 (by norm_num)
  exact ⟨h.1, h.2.2.2.2.2.1, h.2.2.1⟩

theorem flag_grid_geometry_gap_nonpos (n : Nat) (c g tile_w tile_h : Int)
    (h : g ≤ 0) :
    flag_grid_geometry n c g tile_w tile_h
      = flag_grid_geometry n c 0 tile_w tile_h := by
  have hg : max 0 g = max 0 (0 : Int) := by omega
  simp only [flag_grid_geometry, hg]

/-- C10: a negative `gap` is clamped to 0 before layout
(`gap = max(0, gap)`), so the whole grid result — canvas dimensions and the
`(x, y)` destination of every tile included — coincides with the one computed
at `gap = 0`. -/
theorem build_flag_grid_negative_gap (fetchTile : String → Option PILImage)
    (codes : List String) (cols gap : Int) (bg : String) (h : gap < 0) :
    build_flag_grid fetchTile codes cols gap bg
      = build_flag_grid fetchTile codes cols 0 bg := by
  have hgeom : ∀ (n : Nat) (c tw th : Int),
      flag_grid_geometry n c gap tw th = flag_grid_geometry n c 0 tw th :=
    fun n c tw th => flag_grid_geometry_gap_nonpos n c gap tw th (le_of_lt h)
  simp only [build_flag_grid, build_flag_grid_core, hgeom]

/-- Witness for C10 at a concrete resolving input and `gap = -5`. -/
theorem build_flag_grid_negative_gap_witness :
    build_flag_grid (fun _ => some ⟨500, 250⟩) ["au", "nz", "us"] 2 (-5) "transparent"
      = build_flag_grid (fun _ => some ⟨500, 250⟩) ["au", "nz", "us"] 2 0 "transparent" :=
  build_flag_grid_negative_gap (fun _ => some ⟨500, 250⟩) ["au", "nz", "us"] 2 (-5)
    "transparent" (by norm_num)

end Triparific
